import Mathlib

/-!
Verification development for the `bq2dbx` SQL migrator.

The program under study is `src/bq2dbx/converter/sql_converter.py` (the core
conversion pipeline `convert_sql`) together with the batch endpoint
`convert_batch` of `src/app.py`.

The core pipeline applies, to the output of an external transpiler, an ordered
chain of Python `re.sub` rewrites, then YAML-configured function-name and
table-name mappings, then a cleanup step, catching every internal failure at
the top level and rendering it as a `-- ERROR: ...` diagnostic string.

The shallow embedding below models Python regular-expression substitution
(`re.sub`) for exactly the pattern features the source uses: case-sensitive
and case-insensitive literals, an optional single character (`S?`), single
character-class runs (`\w+`, `\s*`, lazy `(.*?)`, `[^']+`, `[^)]*`, `\d+`,
`[\w\-]+`), word boundaries (`\b`), capture groups over such runs, and
top-level alternation.  Matching is leftmost with Python's backtracking
preference order (earlier choice points dominate; greedy runs prefer longer,
lazy runs prefer shorter), and `.` does not match a newline.
-/

/-- Character model of Python `\w` (ASCII fragment, as used by the queries). -/
def isWordChar (c : Char) : Bool := c.isAlphanum || c = '_'

/-- Character model of Python `\s`. -/
def isSpaceChar (c : Char) : Bool :=
  c = ' ' || c = '\t' || c = '\n' || c = '\r' || c = '\x0b' || c = '\x0c'

/-- The single-character classes appearing in the source's regex patterns. -/
inductive CClass
  | wd        -- \w
  | wdHyph    -- [\w\-]
  | ws        -- \s
  | dot       -- . (anything but newline)
  | digit     -- \d
  | notQuote  -- [^']
  | notRParen -- [^)]

def CClass.test : CClass → Char → Bool
  | .wd, c => isWordChar c
  | .wdHyph, c => isWordChar c || c = '-'
  | .ws, c => isSpaceChar c
  | .dot, c => c ≠ '\n'
  | .digit, c => c.isDigit
  | .notQuote, c => c ≠ '\''
  | .notRParen, c => c ≠ ')'

/-- Atomic pattern elements (no nesting). `run cls minOne greedy` models
`C*`/`C+` (by `minOne`) with greedy or lazy preference over a single-character
class `C`. -/
inductive Atom
  | lit (s : List Char)   -- case-sensitive literal
  | ilit (s : List Char)  -- literal under re.IGNORECASE
  | copt (c : Char)       -- optional single char (IGNORECASE, greedy)
  | run (cls : CClass) (minOne : Bool) (greedy : Bool)
  | bnd                   -- \b

/-- A pattern element: a bare atom or a capture group over a flat atom
sequence (the source's groups only ever wrap such sequences once top-level
alternation is distributed). -/
inductive RE
  | atom (a : Atom)
  | grp (idx : Nat) (sub : List Atom)

/-- Captured groups of one match: group index paired with captured text. -/
abbrev Groups := List (Nat × List Char)

def chars (s : String) : List Char := s.data

/-- Case-sensitive literal prefix test. -/
def matchLead : List Char → List Char → Bool
  | [], _ => true
  | _ :: _, [] => false
  | p :: ps, c :: cs => (p = c) && matchLead ps cs

/-- Case-insensitive literal prefix test (re.IGNORECASE). -/
def matchLeadCI : List Char → List Char → Bool
  | [], _ => true
  | _ :: _, [] => false
  | p :: ps, c :: cs => (p.toLower = c.toLower) && matchLeadCI ps cs

/-- Length of the maximal prefix of `cs` satisfying the class `cls`. -/
def maxRun (cls : CClass) : List Char → Nat
  | [] => 0
  | c :: cs => if cls.test c then maxRun cls cs + 1 else 0

/-- Candidate consumption lengths for a class run, in Python's backtracking
preference order: greedy tries the longest first, lazy the shortest first. -/
def runCands (cls : CClass) (minOne greedy : Bool) (cs : List Char) : List Nat :=
  let m := maxRun cls cs
  let lo := if minOne then 1 else 0
  if m < lo then []
  else if greedy then (List.range (m + 1 - lo)).map (fun i => m - i)
  else (List.range (m + 1 - lo)).map (fun i => lo + i)

def isWordOpt : Option Char → Bool
  | none => false
  | some c => isWordChar c

/-- Python `\b`: a word/non-word transition between the previous character and
the next one (string ends count as non-word). -/
def atBoundary (prev next : Option Char) : Bool :=
  isWordOpt prev != isWordOpt next

/-- The character preceding the position reached after consuming `k`
characters of `cs`, given the character `prev` preceding `cs` itself. -/
def stepPrev (prev : Option Char) (k : Nat) (cs : List Char) : Option Char :=
  if k = 0 then prev else (cs.drop (k - 1)).head?

/-- Candidate consumption lengths for one atom, in preference order. -/
def atomCands (prev : Option Char) (a : Atom) (cs : List Char) : List Nat :=
  match a with
  | .lit p => if matchLead p cs then [p.length] else []
  | .ilit p => if matchLeadCI p cs then [p.length] else []
  | .copt c =>
    match cs.head? with
    | some c' => if c.toLower = c'.toLower then [1, 0] else [0]
    | none => [0]
  | .run cls minOne greedy => runCands cls minOne greedy cs
  | .bnd => if atBoundary prev cs.head? then [0] else []

def listFlat {α β : Type} (f : α → List β) : List α → List β
  | [] => []
  | a :: as => f a ++ listFlat f as

/-- All consumption lengths of a flat atom sequence, in Python's backtracking
preference order (choices of earlier atoms dominate). -/
def atomsCands (prev : Option Char) : List Atom → List Char → List Nat
  | [], _ => [0]
  | a :: as, cs =>
    listFlat (fun k =>
      (atomsCands (stepPrev prev k cs) as (cs.drop k)).map (fun k' => k + k'))
      (atomCands prev a cs)

/-- All matches of a pattern at the current position: consumed length plus
captured groups, in Python's backtracking preference order. -/
def reCands (prev : Option Char) : List RE → List Char → List (Nat × Groups)
  | [], _ => [(0, [])]
  | .atom a :: rs, cs =>
    listFlat (fun k =>
      (reCands (stepPrev prev k cs) rs (cs.drop k)).map
        (fun kg => (k + kg.1, kg.2)))
      (atomCands prev a cs)
  | .grp i sub :: rs, cs =>
    listFlat (fun k =>
      (reCands (stepPrev prev k cs) rs (cs.drop k)).map
        (fun kg => (k + kg.1, (i, cs.take k) :: kg.2)))
      (atomsCands prev sub cs)

/-- First match among the alternative patterns at the current position
(Python alternation: earlier alternative wins). -/
def patsFirst (pats : List (List RE)) (prev : Option Char) (cs : List Char) :
    Option (Nat × Groups) :=
  match pats with
  | [] => none
  | p :: ps =>
    match reCands prev p cs with
    | [] => patsFirst ps prev cs
    | m :: _ => some m

/-- Python `re.sub` scan: at each position take the preferred match if any,
emit the replacement and continue after the matched text, otherwise copy one
character.  `fuel` bounds the recursion; it is instantiated with the input
length, which suffices because every step consumes at least one character. -/
def substFuel (pats : List (List RE)) (repl : Groups → List Char) :
    Nat → Option Char → List Char → List Char
  | 0, _, cs => cs
  | _ + 1, _, [] => []
  | fuel + 1, prev, c :: cs =>
    match patsFirst pats prev (c :: cs) with
    | none => c :: substFuel pats repl fuel (some c) cs
    | some (k, g) =>
      if k = 0 then repl g ++ c :: substFuel pats repl fuel (some c) cs
      else repl g ++ substFuel pats repl fuel
        (stepPrev prev k (c :: cs)) (List.drop k (c :: cs))

/-- `re.sub(pattern, repl, cs)` on character lists, where `pats` are the
distributed top-level alternatives of `pattern`. -/
def pySubList (pats : List (List RE)) (repl : Groups → List Char) (cs : List Char) :
    List Char :=
  substFuel pats repl cs.length none cs

/-- `re.sub(pattern, repl, s)` where `pats` are the distributed top-level
alternatives of `pattern`. -/
def pySub (pats : List (List RE)) (repl : Groups → List Char) (s : String) : String :=
  ⟨pySubList pats repl s.data⟩

/-- Whether the scan of `re.sub` finds a match anywhere in the text. -/
def anyMatch (pats : List (List RE)) : Option Char → List Char → Bool
  | _, [] => false
  | prev, c :: cs => (patsFirst pats prev (c :: cs)).isSome || anyMatch pats (some c) cs

/-- Python `str.replace` (all non-overlapping occurrences, left to right);
the source never calls it with an empty pattern. -/
def pyRepAux (pat rep : List Char) : Nat → List Char → List Char
  | 0, cs => cs
  | _ + 1, [] => []
  | fuel + 1, c :: cs =>
    if pat.length ≥ 1 && matchLead pat (c :: cs) then
      rep ++ pyRepAux pat rep fuel (List.drop (pat.length - 1) cs)
    else c :: pyRepAux pat rep fuel cs

def pyReplace (s pat rep : String) : String :=
  ⟨pyRepAux pat.data rep.data s.data.length s.data⟩

/-- Python substring containment (`pat in s`). -/
def listContains (pat : List Char) : List Char → Bool
  | [] => pat.isEmpty
  | c :: cs => matchLead pat (c :: cs) || listContains pat cs

/-- Python `str.upper` (ASCII fragment). -/
def pyUpper (cs : List Char) : List Char := cs.map Char.toUpper

def dropLeadWs : List Char → List Char
  | [] => []
  | c :: cs => if isSpaceChar c then dropLeadWs cs else c :: cs

/-- Python `str.strip`. -/
def pyStrip (s : String) : String :=
  ⟨(dropLeadWs (dropLeadWs s.data.reverse).reverse)⟩

/-- Captured text of group `i` (Python substitutes the empty string for a
group that did not participate). -/
def gp (g : Groups) (i : Nat) : List Char := (List.lookup i g).getD []

/-! ## The construct rewrite chain of `convert_sql` (sql_converter.py, step 2)

Each pass below is the embedding of one `re.sub` call, in source order, with
its Python pattern distributed over top-level alternation where present. -/

/-- One `re.sub`-based rewrite pass: alternative patterns plus a replacement
computation over the captured groups. -/
structure SubPass where
  pats : List (List RE)
  repl : Groups → List Char

def aLit (s : String) : RE := .atom (.lit s.data)
def aILit (s : String) : RE := .atom (.ilit s.data)
def aOpt (c : Char) : RE := .atom (.copt c)
def aRun (cls : CClass) (minOne greedy : Bool) : RE := .atom (.run cls minOne greedy)
def aBnd : RE := .atom .bnd
def aGrpRun (i : Nat) (cls : CClass) (minOne greedy : Bool) : RE :=
  .grp i [.run cls minOne greedy]

/-- `COUNT_IF\s*\((.*?)\)` → `SUM(CASE WHEN \1 THEN 1 ELSE 0 END)`, IGNORECASE. -/
def countIfPass : SubPass where
  pats := [[aILit "COUNT_IF", aRun .ws false true, aLit "(",
            aGrpRun 1 .dot false false, aLit ")"]]
  repl := fun g => chars "SUM(CASE WHEN " ++ gp g 1 ++ chars " THEN 1 ELSE 0 END)"

/-- `IF\s*\((.*?),(.*?),(.*?)\)` → `CASE WHEN \1 THEN \2 ELSE \3 END`, IGNORECASE. -/
def ifPass : SubPass where
  pats := [[aILit "IF", aRun .ws false true, aLit "(",
            aGrpRun 1 .dot false false, aLit ",",
            aGrpRun 2 .dot false false, aLit ",",
            aGrpRun 3 .dot false false, aLit ")"]]
  repl := fun g => chars "CASE WHEN " ++ gp g 1 ++ chars " THEN " ++ gp g 2 ++
    chars " ELSE " ++ gp g 3 ++ chars " END"

/-- Inner substitution of the STRUCT pass: `(\w+)\s+AS\s+(\w+)` → `'\2', \1`
(no flags, hence case-sensitive). -/
def structInnerPats : List (List RE) :=
  [[aGrpRun 1 .wd true true, aRun .ws true true, aLit "AS", aRun .ws true true,
    aGrpRun 2 .wd true true]]

def structInnerRepl (g : Groups) : List Char :=
  chars "'" ++ gp g 2 ++ chars "', " ++ gp g 1

/-- `STRUCT\s*\((.*?)\)` → `named_struct(` + inner rewrite of `\1` + `)`,
IGNORECASE outer. -/
def structPass : SubPass where
  pats := [[aILit "STRUCT", aRun .ws false true, aLit "(",
            aGrpRun 1 .dot false false, aLit ")"]]
  repl := fun g =>
    chars "named_struct(" ++ pySubList structInnerPats structInnerRepl (gp g 1) ++ chars ")"

/-- `ARRAY<\w+>\[(.*?)\]` → `ARRAY(\1)`, IGNORECASE. -/
def arrayPass : SubPass where
  pats := [[aILit "ARRAY", aLit "<", aRun .wd true true, aLit ">[",
            aGrpRun 1 .dot false false, aLit "]"]]
  repl := fun g => chars "ARRAY(" ++ gp g 1 ++ chars ")"

/-- `((?:DATE\s+'[^']+'|CAST\([^)]*AS\s+DATE\)))\s*\+\s*(\d+)` →
`\1 + INTERVAL \2 DAY` (no flags), with the alternation distributed into two
alternative patterns. -/
def datePass : SubPass where
  pats :=
    [[RE.grp 1 [.lit (chars "DATE"), .run .ws true true, .lit (chars "'"),
                .run .notQuote true true, .lit (chars "'")],
      aRun .ws false true, aLit "+", aRun .ws false true,
      RE.grp 2 [.run .digit true true]],
     [RE.grp 1 [.lit (chars "CAST("), .run .notRParen false true,
                .lit (chars "AS"), .run .ws true true, .lit (chars "DATE)")],
      aRun .ws false true, aLit "+", aRun .ws false true,
      RE.grp 2 [.run .digit true true]]]
  repl := fun g => gp g 1 ++ chars " + INTERVAL " ++ gp g 2 ++ chars " DAY"

/-- `PARTITION\s+BY\s+DATE\s*\(\s*(\w+)\s*\)` → `PARTITIONED BY (\1)`, IGNORECASE. -/
def partitionPass : SubPass where
  pats := [[aILit "PARTITION", aRun .ws true true, aILit "BY", aRun .ws true true,
            aILit "DATE", aRun .ws false true, aLit "(", aRun .ws false true,
            aGrpRun 1 .wd true true, aRun .ws false true, aLit ")"]]
  repl := fun g => chars "PARTITIONED BY (" ++ gp g 1 ++ chars ")"

/-- `\bCLUSTER\s+BY\b` → `CLUSTERED BY`, IGNORECASE. -/
def clusterPass : SubPass where
  pats := [[aBnd, aILit "CLUSTER", aRun .ws true true, aILit "BY", aBnd]]
  repl := fun _ => chars "CLUSTERED BY"

/-- `UNNEST\s*\(\s*SEQUENCE\s*\((.*?)\)\s*\)` → `EXPLODE(SEQUENCE(\1))`, IGNORECASE. -/
def unnestPass : SubPass where
  pats := [[aILit "UNNEST", aRun .ws false true, aLit "(", aRun .ws false true,
            aILit "SEQUENCE", aRun .ws false true, aLit "(",
            aGrpRun 1 .dot false false, aLit ")", aRun .ws false true, aLit ")"]]
  repl := fun g => chars "EXPLODE(SEQUENCE(" ++ gp g 1 ++ chars "))"

/-- `STARTS?_?WITH\s*\((.*?),(.*?)\)` →
`CASE WHEN \1 LIKE CONCAT(\2, '%') THEN TRUE ELSE FALSE END`, IGNORECASE. -/
def startsPass : SubPass where
  pats := [[aILit "START", aOpt 'S', aOpt '_', aILit "WITH", aRun .ws false true,
            aLit "(", aGrpRun 1 .dot false false, aLit ",",
            aGrpRun 2 .dot false false, aLit ")"]]
  repl := fun g => chars "CASE WHEN " ++ gp g 1 ++ chars " LIKE CONCAT(" ++ gp g 2 ++
    chars ", '%') THEN TRUE ELSE FALSE END"

/-- `ENDS?_?WITH\s*\((.*?),(.*?)\)` →
`CASE WHEN \1 LIKE CONCAT('%', \2) THEN TRUE ELSE FALSE END`, IGNORECASE. -/
def endsPass : SubPass where
  pats := [[aILit "END", aOpt 'S', aOpt '_', aILit "WITH", aRun .ws false true,
            aLit "(", aGrpRun 1 .dot false false, aLit ",",
            aGrpRun 2 .dot false false, aLit ")"]]
  repl := fun g => chars "CASE WHEN " ++ gp g 1 ++ chars " LIKE CONCAT('%', " ++ gp g 2 ++
    chars ") THEN TRUE ELSE FALSE END"

/-- `(\w+):(\w+)` → `get_json_object(\1, '$.\2')` (no flags). -/
def colonPass : SubPass where
  pats := [[aGrpRun 1 .wd true true, aLit ":", aGrpRun 2 .wd true true]]
  repl := fun g => chars "get_json_object(" ++ gp g 1 ++ chars ", '$." ++ gp g 2 ++ chars "')"

/-- `(\w+)\['(\w+)'\]` → `get_json_object(\1, '$.\2')` (no flags). -/
def bracketPass : SubPass where
  pats := [[aGrpRun 1 .wd true true, aLit "['", aGrpRun 2 .wd true true, aLit "']"]]
  repl := fun g => chars "get_json_object(" ++ gp g 1 ++ chars ", '$." ++ gp g 2 ++ chars "')"

/-- `SEARCH\s*\((.*?),(.*?)\)` → `CONTAINS(\1, \2)`, IGNORECASE. -/
def searchPass : SubPass where
  pats := [[aILit "SEARCH", aRun .ws false true, aLit "(",
            aGrpRun 1 .dot false false, aLit ",",
            aGrpRun 2 .dot false false, aLit ")"]]
  repl := fun g => chars "CONTAINS(" ++ gp g 1 ++ chars ", " ++ gp g 2 ++ chars ")"

/-- Applying one `re.sub` pass to the whole text. -/
def applySub (p : SubPass) (s : String) : String := pySub p.pats p.repl s

/-- The `re.sub` passes of step 2 in their source order. -/
def chainSubPasses : List SubPass :=
  [countIfPass, ifPass, structPass, arrayPass, datePass, partitionPass,
   clusterPass, unnestPass, startsPass, endsPass, colonPass, bracketPass,
   searchPass]

/-- First pass of step 2: if the *original* query (uppercased) contains
`ARRAY_AGG(DISTINCT`, replace `COLLECT_LIST(DISTINCT` with `COLLECT_SET(` in
the transpiled text. -/
def arrayAggPass (query t : String) : String :=
  if listContains (chars "ARRAY_AGG(DISTINCT") (pyUpper query.data) then
    pyReplace t "COLLECT_LIST(DISTINCT" "COLLECT_SET("
  else t

/-- Step 2 of `convert_sql`: the construct rewrite chain. -/
def rewriteChain (query t : String) : String :=
  chainSubPasses.foldl (fun acc p => applySub p acc) (arrayAggPass query t)

/-! ## Rule set and identifier remap stage (sql_converter.py, step 3) -/

/-- The `table_mapping` section of the rule document: three independent
segment mappings (`projects`, `datasets`, `tables`), each optional in the
document and defaulting to empty. -/
structure TableMapping where
  projects : List (String × String)
  datasets : List (String × String)
  tables : List (String × String)

/-- A parsed rule document: the `functions` mapping (in its enumeration
order, as Python `dict.items()` yields it) and the optional `table_mapping`
section. -/
structure Rules where
  functions : List (String × String)
  tableMapping : Option TableMapping

def emptyRules : Rules := ⟨[], none⟩

/-- State of the rule document on disk, as `convert_sql` observes it:
missing, or present with the outcome of `yaml.safe_load`. -/
inductive RuleDoc
  | absent
  | present (parsed : Except String Rules)

/-- Rule loading of `convert_sql`: a missing file leaves the rule set empty;
a present file yields whatever `yaml.safe_load` produced — in particular a
parse failure is an exception that propagates out of this step. -/
def loadRules : RuleDoc → Except String Rules
  | .absent => .ok emptyRules
  | .present p => p

/-- Function mappings: for each pair in enumeration order, if the source name
occurs in the text, replace all its occurrences by the target name. -/
def applyFunctionRules (prs : List (String × String)) (t : String) : String :=
  prs.foldl
    (fun acc pr => if listContains pr.1.data acc.data then pyReplace acc pr.1 pr.2 else acc)
    t

/-- `dict.get(key, key)`: look the segment up, falling back to itself. -/
def segLookup (m : List (String × String)) (k : String) : String :=
  (List.lookup k m).getD k

/-- `replace_table` of `convert_sql`: resolve the three segments of a
qualified reference independently, each with identity fallback, and re-emit
as an unquoted dotted three-part name. -/
def replace_table (pm dm tbm : List (String × String)) (p d tb : String) : String :=
  segLookup pm p ++ "." ++ segLookup dm d ++ "." ++ segLookup tbm tb

/-- The two alternatives of the table-reference pattern
`` `([\w\-]+)`\.`([\w\-]+)`\.`([\w\-]+)`|`([\w\-]+)\.([\w\-]+)\.([\w\-]+)` ``. -/
def tablePats : List (List RE) :=
  [[aLit "`", aGrpRun 1 .wdHyph true true, aLit "`.`", aGrpRun 2 .wdHyph true true,
    aLit "`.`", aGrpRun 3 .wdHyph true true, aLit "`"],
   [aLit "`", aGrpRun 4 .wdHyph true true, aLit ".", aGrpRun 5 .wdHyph true true,
    aLit ".", aGrpRun 6 .wdHyph true true, aLit "`"]]

/-- The replacement lambda of the table-mapping substitution:
`m.group(1) or m.group(4)` etc., fed to `replace_table`. -/
def tableRepl (m : TableMapping) (g : Groups) : List Char :=
  let pick : Nat → Nat → String := fun i j =>
    ⟨(List.lookup i g).getD ((List.lookup j g).getD [])⟩
  (replace_table m.projects m.datasets m.tables (pick 1 4) (pick 2 5) (pick 3 6)).data

/-- Table mappings are applied only when the rule document has a
`table_mapping` section. -/
def applyTableMapping (tm : Option TableMapping) (t : String) : String :=
  match tm with
  | none => t
  | some m => pySub tablePats (tableRepl m) t

/-- Step 4 of `convert_sql`: the cleanup chain of `str.replace` calls,
followed by `strip` in the caller. -/
def cleanup (t : String) : String :=
  pyReplace (pyReplace (pyReplace (pyReplace t "TIMESTAMPSTAMP" "TIMESTAMP")
    "( " "(") " )" ")") "CURRENT_TIMESTAMP()" "CURRENT_TIMESTAMP"

/-! ## Top-level orchestration of `convert_sql`

The external transpiler (`sqlglot.transpile`, an out-of-scope collaborator)
is abstracted as a function returning either the transpiled text or the
message of the exception it raised.  The body of `convert_sql` is one `try`
block, so a failure of the transpiler or of rule parsing propagates to the
common handler; the rewrite chain, the mappings and the cleanup are total. -/

def pipeline (transpile : String → Except String String) (query : String)
    (doc : RuleDoc) : Except String String :=
  match transpile query with
  | .error e => .error e
  | .ok t0 =>
    let t1 := rewriteChain query t0
    match loadRules doc with
    | .error e => .error e
    | .ok rules =>
      let t2 := applyFunctionRules rules.functions t1
      let t3 := applyTableMapping rules.tableMapping t2
      .ok (pyStrip (cleanup t3))

/-- `convert_sql`: the pipeline with its top-level exception handler, which
renders any internal failure as `-- ERROR: ` followed by the message. -/
def convert_sql (transpile : String → Except String String) (query : String)
    (doc : RuleDoc) : String :=
  match pipeline transpile query doc with
  | .ok s => s
  | .error e => "-- ERROR: " ++ e

/-- `s` begins with the text `pre`. -/
def beginsWith (pre s : String) : Prop := ∃ rest, s.data = pre.data ++ rest

/-! ## The batch endpoint `convert_batch` of `app.py`

File contents arrive as the outcome of `file.read()` + `content.decode`,
modelled as `Except` (an undecodable file raises, landing in the per-file
handler that writes an error entry instead).  `core` is `convert_sql` as the
endpoint calls it, `llm` is `convert_udf_with_llm`; both are parameters so
that invocations of the core can be counted structurally. -/

/-- Per-file processing of the batch loop: the produced zip entry body and
the number of times the core (`convert_sql`) was invoked for this file. -/
def processOne (core llm : String → String) (mode : String)
    (content : Except String String) : String × Nat :=
  match content with
  | .error e => ("Conversion failed: " ++ e, 0)
  | .ok query =>
    if mode = "sql" then (core query, 1)
    else if mode = "pyspark" then ("df = spark.sql('''" ++ core query ++ "''')", 1)
    else if mode = "python" then ("df = duckdb.query('''" ++ core query ++ "''').to_df()", 1)
    else if mode = "udf" then (llm query, 0)
    else ("-- ERROR: Unsupported conversion mode", 0)

/-- Outcome of one batch request: the response (either the max-files error or
the list of zip entry bodies) and the total number of core invocations. -/
structure BatchOutcome where
  response : Except String (List String)
  coreCalls : Nat

/-- `convert_batch`: reject batches of more than 100 files before any
processing, otherwise process every file. -/
def convert_batch (core llm : String → String) (mode : String)
    (files : List (Except String String)) : BatchOutcome :=
  if files.length > 100 then
    ⟨.error "You can upload a maximum of 100 files.", 0⟩
  else
    ⟨.ok (files.map (fun f => (processOne core llm mode f).1)),
     (files.map (fun f => (processOne core llm mode f).2)).sum⟩

def isOkB (f : Except String String) : Bool :=
  match f with
  | .ok _ => true
  | .error _ => false

/-! ## Helper lemmas -/

/-- If the `re.sub` scan finds no match anywhere, the substitution returns
its input unchanged (for any fuel). -/
theorem substFuel_no_match (pats : List (List RE)) (repl : Groups → List Char) :
    ∀ (fuel : Nat) (prev : Option Char) (cs : List Char),
      anyMatch pats prev cs = false → substFuel pats repl fuel prev cs = cs := by
  intro fuel
  induction fuel with
  | zero => intro prev cs _; rfl
  | succ n ih =>
    intro prev cs h
    cases cs with
    | nil => rfl
    | cons c rest =>
      simp only [anyMatch, Bool.or_eq_false_iff] at h
      obtain ⟨h1, h2⟩ := h
      cases hp : patsFirst pats prev (c :: rest) with
      | some m => rw [hp] at h1; simp at h1
      | none =>
        simp only [substFuel, hp]
        exact congrArg (List.cons c) (ih (some c) rest h2)

/-- A text containing no source name of any pair is left unchanged by the
function-mapping stage. -/
theorem applyFunctionRules_no_occur :
    ∀ (l : List (String × String)) (t : String),
      (∀ pr ∈ l, listContains pr.1.data t.data = false) →
      applyFunctionRules l t = t := by
  intro l
  induction l with
  | nil => intro t _; rfl
  | cons pr l ih =>
    intro t h
    have h1 := h pr (List.mem_cons_self _ _)
    have step : (if listContains pr.1.data t.data then pyReplace t pr.1 pr.2 else t) = t := by
      simp [h1]
    calc applyFunctionRules (pr :: l) t
        = applyFunctionRules l
            (if listContains pr.1.data t.data then pyReplace t pr.1 pr.2 else t) := rfl
      _ = applyFunctionRules l t := by rw [step]
      _ = t := ih t (fun pr' hm => h pr' (List.mem_cons_of_mem _ hm))

/-- In the three SQL-producing modes, each decodable file contributes exactly
one core invocation. -/
theorem batchCallsAux (core llm : String → String) (mode : String)
    (hmode : mode = "sql" ∨ mode = "pyspark" ∨ mode = "python") :
    ∀ files : List (Except String String), (∀ f ∈ files, isOkB f = true) →
      (files.map (fun f => (processOne core llm mode f).2)).sum = files.length := by
  intro files
  induction files with
  | nil => intro _; rfl
  | cons f fs ih =>
    intro h
    have hf : isOkB f = true := h f (List.mem_cons_self _ _)
    have hone : (processOne core llm mode f).2 = 1 := by
      cases f with
      | error e => simp [isOkB] at hf
      | ok q => rcases hmode with h1 | h1 | h1 <;> subst h1 <;> simp [processOne]
    simp [hone, ih (fun f' hm => h f' (List.mem_cons_of_mem _ hm))]
    omega

/-- In `udf` mode the core is never invoked. -/
theorem batchUdfAux (core llm : String → String) :
    ∀ files : List (Except String String),
      (files.map (fun f => (processOne core llm "udf" f).2)).sum = 0 := by
  intro files
  induction files with
  | nil => rfl
  | cons f fs ih =>
    have h0 : (processOne core llm "udf" f).2 = 0 := by
      cases f with
      | error e => rfl
      | ok q => simp [processOne]
    simp [h0, ih]

/-! ## Claim theorems -/

/-- C1: for every transpiler outcome, query and rule-document state,
`convert_sql` returns a string, and whenever any stage of the pipeline fails
the result begins with the fixed diagnostic marker `-- ERROR:`; no failure
escapes the function boundary (totality of `convert_sql` in the embedding). -/
theorem convert_sql_diagnostic_containment :
    ∀ (tr : String → Except String String) (q : String) (d : RuleDoc),
      (∃ s, pipeline tr q d = Except.ok s ∧ convert_sql tr q d = s) ∨
      beginsWith "-- ERROR:" (convert_sql tr q d) := by
  intro tr q d
  cases h : pipeline tr q d with
  | ok s =>
    refine Or.inl ⟨s, rfl, ?_⟩
    simp [convert_sql, h]
  | error e =>
    refine Or.inr ⟨' ' :: e.data, ?_⟩
    simp [convert_sql, h]

/-- C2 counterexample: with a rule document that exists but fails to parse,
`convert_sql` returns the diagnostic, not a converted query, even though
every other stage succeeds (identity transpiler, trigger-free query). -/
theorem ruleLoad_failure_yields_diagnostic_cex :
    convert_sql (fun s => Except.ok s) "SELECT 1"
      (RuleDoc.present (Except.error "bad yaml")) = "-- ERROR: bad yaml" := rfl

/-- C2 amended: only a missing rule document degrades to the empty rule set;
a present rule document that cannot be parsed aborts the conversion, whose
result then begins with the diagnostic marker for every query. -/
theorem ruleLoad_failure_aborts_amended :
    loadRules RuleDoc.absent = Except.ok emptyRules ∧
    (∀ e, loadRules (RuleDoc.present (Except.error e)) = Except.error e) ∧
    (∀ (tr : String → Except String String) (q : String) (e : String),
       beginsWith "-- ERROR:" (convert_sql tr q (RuleDoc.present (Except.error e)))) := by
  refine ⟨rfl, fun _ => rfl, fun tr q e => ?_⟩
  cases h : tr q with
  | error e' => exact ⟨' ' :: e'.data, by simp [convert_sql, pipeline, h]⟩
  | ok t0 => exact ⟨' ' :: e.data, by simp [convert_sql, pipeline, h, loadRules]⟩

/-- C3: on a ternary whose condition contains a nested call with a comma, the
pass splits at the wrong commas instead of preserving the three arguments
verbatim — the evaluation at the failing input `IF(f(a,b), c, d)`. -/
theorem ternary_nested_comma_bug :
    applySub ifPass "IF(f(a,b), c, d)" = "CASE WHEN f(a THEN b) ELSE  c, d END" ∧
    applySub ifPass "IF(f(a,b), c, d)" ≠ "CASE WHEN f(a,b) THEN  c ELSE  d END" :=
  ⟨rfl, by decide⟩

/-- C4 counterexample: the input `RESEARCH(a, b)` contains no full-text
search construct (no `SEARCH(a,b)` call), yet the SEARCH pass rewrites the
embedded letters and alters the text. -/
theorem no_trigger_pass_alters_text_cex :
    applySub searchPass "RESEARCH(a, b)" = "RECONTAINS(a,  b)" ∧
    applySub searchPass "RESEARCH(a, b)" ≠ "RESEARCH(a, b)" :=
  ⟨rfl, by decide⟩

/-- C4 amended: a pass leaves its input exactly unchanged whenever the
input contains no substring matched by the pass's regular expression (for
the aggregate-distinct pass: when the original query does not contain
`ARRAY_AGG(DISTINCT`); mere absence of the dialect construct the pass is
meant to detect is not sufficient. -/
theorem no_regex_match_identity :
    (∀ p ∈ chainSubPasses, ∀ s : String,
       anyMatch p.pats none s.data = false → applySub p s = s) ∧
    (∀ q t : String,
       listContains (chars "ARRAY_AGG(DISTINCT") (pyUpper q.data) = false →
       arrayAggPass q t = t) := by
  constructor
  · intro p _ s h
    unfold applySub pySub pySubList
    rw [substFuel_no_match p.pats p.repl s.data.length none s.data h]
  · intro q t h
    simp [arrayAggPass, h]

/-- C4 witness: the COUNT_IF pass and the aggregate-distinct pass leave a
match-free text unchanged. -/
theorem no_regex_match_identity_witness :
    applySub countIfPass "SELECT 1" = "SELECT 1" ∧
    arrayAggPass "SELECT 1" "X" = "X" :=
  ⟨no_regex_match_identity.1 countIfPass (by simp [chainSubPasses]) "SELECT 1" (by decide),
   no_regex_match_identity.2 "SELECT 1" "X" (by decide)⟩

/-- C5: `replace_table` resolves the three segments independently, each
segment absent from its mapping is emitted unchanged, and the concrete
scenario `` SELECT * FROM `proj1.ds1.tbl1` `` with `proj1→cat1`, `ds1→sch1`
and no table mapping yields `cat1.sch1.tbl1`. -/
theorem table_mapping_identity_fallback :
    (∀ (pm dm tbm : List (String × String)) (p d tb : String),
       replace_table pm dm tbm p d tb =
         segLookup pm p ++ "." ++ segLookup dm d ++ "." ++ segLookup tbm tb) ∧
    (∀ (m : List (String × String)) (k : String),
       List.lookup k m = none → segLookup m k = k) ∧
    applyTableMapping (some ⟨[("proj1", "cat1")], [("ds1", "sch1")], []⟩)
      "SELECT * FROM `proj1.ds1.tbl1`" = "SELECT * FROM cat1.sch1.tbl1" := by
  refine ⟨fun _ _ _ _ _ _ => rfl, fun m k h => ?_, rfl⟩
  simp [segLookup, h]

/-- C5 witness: a segment missing from its mapping falls back to itself. -/
theorem table_mapping_identity_fallback_witness :
    segLookup [("proj1", "cat1")] "other" = "other" :=
  table_mapping_identity_fallback.2.1 [("proj1", "cat1")] "other" (by decide)

/-- C6 counterexample: two enumeration orders of the same set of mapping
pairs produce different outputs, because the pairs are applied sequentially
and one pair's target is the other pair's source. -/
theorem function_mapping_order_dependent_cex :
    List.Perm [("FOO", "BAR"), ("BAR", "BAZ")] [("BAR", "BAZ"), ("FOO", "BAR")] ∧
    applyFunctionRules [("FOO", "BAR"), ("BAR", "BAZ")] "FOO" = "BAZ" ∧
    applyFunctionRules [("BAR", "BAZ"), ("FOO", "BAR")] "FOO" = "BAR" ∧
    ("BAZ" : String) ≠ "BAR" :=
  ⟨List.Perm.swap _ _ _, rfl, rfl, by decide⟩

/-- C6 amended: the function-mapping stage applies the pairs sequentially in
enumeration order, so its output is order-independent only under a
non-interference condition; in particular, for texts in which no source name
occurs, every enumeration order yields the same (unchanged) output. -/
theorem function_mapping_order_amended :
    ∀ (l1 l2 : List (String × String)) (t : String), List.Perm l1 l2 →
      (∀ pr ∈ l1, listContains pr.1.data t.data = false) →
      applyFunctionRules l1 t = applyFunctionRules l2 t := by
  intro l1 l2 t hperm h
  rw [applyFunctionRules_no_occur l1 t h,
    applyFunctionRules_no_occur l2 t (fun pr hm => h pr (hperm.mem_iff.mpr hm))]

/-- C6 witness: two orders of pairs whose sources do not occur in the text
agree. -/
theorem function_mapping_order_amended_witness :
    applyFunctionRules [("FOO", "BAR"), ("QUX", "BAZ")] "SELECT x" =
      applyFunctionRules [("QUX", "BAZ"), ("FOO", "BAR")] "SELECT x" :=
  function_mapping_order_amended _ _ _ (List.Perm.swap _ _ _) (by decide)

/-- C7: `convert_sql` is a pure function of the query, the rule-document
content and the transpiler, so two invocations on the same fixed inputs are
bit-identical; the only process state of the source (the rule file on disk)
is explicit here as the `RuleDoc` argument. -/
theorem convert_sql_deterministic :
    ∀ (tr : String → Except String String) (q : String) (d : RuleDoc),
      convert_sql tr q d = convert_sql tr q d := fun _ _ _ => rfl

/-- C8 counterexample: a one-file batch request in `udf` mode invokes the
core zero times, not once per file. -/
theorem batch_udf_mode_core_calls_cex :
    (convert_batch (fun q => q) (fun q => q) "udf"
        [(Except.ok "SELECT 1" : Except String String)]).coreCalls = 0 ∧
    [(Except.ok "SELECT 1" : Except String String)].length = 1 ∧ (0 : Nat) ≠ 1 :=
  ⟨rfl, rfl, by decide⟩

/-- C8 amended: a batch of more than 100 files is rejected with the fixed
error before any processing (zero core invocations); a batch of at most 100
files invokes the core exactly once per decodable file in the SQL-producing
modes (`sql`, `pyspark`, `python`), and zero times in `udf` mode. -/
theorem batch_limit_amended :
    (∀ (core llm : String → String) (mode : String)
       (files : List (Except String String)), files.length > 100 →
       (convert_batch core llm mode files).response =
           Except.error "You can upload a maximum of 100 files." ∧
       (convert_batch core llm mode files).coreCalls = 0) ∧
    (∀ (core llm : String → String) (mode : String)
       (files : List (Except String String)), files.length ≤ 100 →
       (mode = "sql" ∨ mode = "pyspark" ∨ mode = "python") →
       (∀ f ∈ files, isOkB f = true) →
       (convert_batch core llm mode files).coreCalls = files.length) ∧
    (∀ (core llm : String → String) (files : List (Except String String)),
       files.length ≤ 100 →
       (convert_batch core llm "udf" files).coreCalls = 0) := by
  refine ⟨fun core llm mode files h => ?_, fun core llm mode files hlen hmode hok => ?_,
    fun core llm files hlen => ?_⟩
  · unfold convert_batch
    rw [if_pos h]
    exact ⟨rfl, rfl⟩
  · unfold convert_batch
    rw [if_neg (by omega)]
    exact batchCallsAux core llm mode hmode files hok
  · unfold convert_batch
    rw [if_neg (by omega)]
    exact batchUdfAux core llm files

/-- C8 witness: 101 files are rejected; two decodable files in `sql` mode
give two core invocations; one file in `udf` mode gives zero. -/
theorem batch_limit_amended_witness :
    (convert_batch (fun q => q) (fun q => q) "sql"
        (List.replicate 101 (Except.ok "q" : Except String String))).response =
      Except.error "You can upload a maximum of 100 files." ∧
    (convert_batch (fun q => q) (fun q => q) "sql"
        [(Except.ok "SELECT 1" : Except String String), Except.ok "SELECT 2"]).coreCalls = 2 ∧
    (convert_batch (fun q => q) (fun q => q) "udf"
        [(Except.ok "SELECT 1" : Except String String)]).coreCalls = 0 :=
  ⟨(batch_limit_amended.1 _ _ _ _ (by decide)).1,
   batch_limit_amended.2.1 _ _ _ _ (by decide) (Or.inl rfl) (by decide),
   batch_limit_amended.2.2 _ _ _ (by decide)⟩

/-- C9: the colon-path JSON rewrite fires on any `word:word` occurrence,
including digit sequences inside a single-quoted time literal: `'12:30'`
becomes `'get_json_object(12, '$.30')'`. -/
theorem colon_rewrite_inside_string_literal :
    applySub colonPass "'12:30'" = "'get_json_object(12, '$.30')'" := rfl

/-- C10: the ternary pass matches the letters `IF` without a word boundary,
so `MOTIF(a, b, c)` has its trailing `IF(...)` rewritten into a CASE
expression with the prefix `MOT` left behind. -/
theorem ternary_no_word_boundary :
    applySub ifPass "MOTIF(a, b, c)" = "MOTCASE WHEN a THEN  b ELSE  c END" := rfl
